import Mathlib

/-!
Shallow embedding of the iiko-api TypeScript client (src/client.ts, src/errors.ts,
src/types/common.ts) in Lean 4.

Modeling conventions:
* JS `string | null` / optional values become `Option String`.
* JS `number` values that the code only carries (never computes with) become `Nat`/`Int`.
* The JS `NaN` outcome of `parseInt` is modeled by `JsNumber.nan`.
* The axios transport is an explicit function argument; each client operation
  returns its result, the (possibly updated) client, and the list of requests it
  dispatched over the network, so that "performs no network call" is the
  statement that the dispatched list is empty.
* Thrown exceptions become `Except` errors.
-/

namespace IikoApi

/-- JS `NaN`-or-integer result of `parseInt`. -/
inductive JsNumber where
  | nan : JsNumber
  | num : Int → JsNumber
deriving Repr, DecidableEq

/-- The whitespace characters recognized by JS `String.prototype.trim` /
`parseInt` leading-whitespace skipping (ASCII subset). -/
def jsWhitespaceChar (c : Char) : Bool :=
  c = ' ' || c = '\t' || c = '\n' || c = '\r' || c = '\x0b' || c = '\x0c'

/-- JS `s.trim()`: strip leading and trailing whitespace. -/
def jsTrim (s : String) : String :=
  String.mk (((s.data.dropWhile jsWhitespaceChar).reverse.dropWhile
      jsWhitespaceChar).reverse)

/-- JS truthiness of a `string | null | undefined` value: `null`, `undefined`
and the empty string are falsy. -/
def jsTruthy : Option String → Bool
  | Option.none => false
  | Option.some t => !(t == "")

/-- Numeric value of a (non-empty) digit list. -/
def digitsVal (ds : List Char) : Nat :=
  ds.foldl (fun a c => 10 * a + (c.toNat - '0'.toNat)) 0

/-- JS `parseInt(s, 10)`: skip leading whitespace, optional sign, then the
longest digit prefix; `NaN` when no digit is found. -/
def jsParseInt (s : String) : JsNumber :=
  let cs := s.data.dropWhile jsWhitespaceChar
  match cs with
  | '-' :: rest =>
    let ds := rest.takeWhile Char.isDigit
    if ds.isEmpty then JsNumber.nan else JsNumber.num (-(digitsVal ds : Int))
  | '+' :: rest =>
    let ds := rest.takeWhile Char.isDigit
    if ds.isEmpty then JsNumber.nan else JsNumber.num (digitsVal ds)
  | _ =>
    let ds := cs.takeWhile Char.isDigit
    if ds.isEmpty then JsNumber.nan else JsNumber.num (digitsVal ds)

/-- `ApiErrorResponse` from src/types/common.ts: the structured error body. -/
structure ApiErrorResponse where
  errorCode : Option String
  message : Option String
  details : Option String
deriving Repr, DecidableEq

/-- Flattened view of the error-class hierarchy of src/errors.ts:
`IikoApiError` and its subclasses `IikoAuthError`, `IikoRateLimitError`,
distinguished by the `name` field exactly as the JS classes are. -/
structure IikoApiError where
  name : String
  message : String
  statusCode : Nat
  errorCode : Option String
  retryAfter : Option JsNumber
  response : Option ApiErrorResponse
deriving Repr, DecidableEq

/-- `new IikoApiError(message, statusCode, errorCode?, response?)`. -/
def IikoApiError.make (message : String) (statusCode : Nat)
    (errorCode : Option String) (response : Option ApiErrorResponse) :
    IikoApiError :=
  { name := "IikoApiError", message := message, statusCode := statusCode,
    errorCode := errorCode, retryAfter := none, response := response }

/-- `new IikoAuthError(message, response?)`: statusCode 401, errorCode
"AUTH_ERROR". -/
def IikoAuthError.make (message : String) (response : Option ApiErrorResponse) :
    IikoApiError :=
  { name := "IikoAuthError", message := message, statusCode := 401,
    errorCode := some "AUTH_ERROR", retryAfter := none, response := response }

/-- `new IikoRateLimitError(message, retryAfter?, response?)`: statusCode 429,
errorCode "RATE_LIMIT". -/
def IikoRateLimitError.make (message : String) (retryAfter : Option JsNumber)
    (response : Option ApiErrorResponse) : IikoApiError :=
  { name := "IikoRateLimitError", message := message, statusCode := 429,
    errorCode := some "RATE_LIMIT", retryAfter := retryAfter,
    response := response }

/-- The parts of a failed axios response that `handleError` consults:
`error.response.status`, `error.response.data`, and
`error.response.headers["retry-after"]`. -/
structure AxiosResponse where
  status : Nat
  data : Option ApiErrorResponse
  retryAfterHeader : Option String
deriving Repr, DecidableEq

/-- An `AxiosError`: an optional response (absent when the transport produced
no response at all) and the transport layer's own `message`. -/
structure AxiosError where
  response : Option AxiosResponse
  message : Option String
deriving Repr, DecidableEq

/-- `IikoClient.handleError` from src/client.ts: classify a transport failure
into exactly one typed error. -/
def handleError (error : AxiosError) : IikoApiError :=
  let status := (error.response.map AxiosResponse.status).getD 500
  let data := error.response.bind AxiosResponse.data
  let message := ((data.bind ApiErrorResponse.message).or error.message).getD
    "An unknown error occurred"
  if status = 401 then
    IikoAuthError.make message data
  else if status = 429 then
    let retryAfter := error.response.bind AxiosResponse.retryAfterHeader
    IikoRateLimitError.make message
      (if jsTruthy retryAfter then retryAfter.map jsParseInt else none) data
  else
    IikoApiError.make message status (data.bind ApiErrorResponse.errorCode) data

/-- `IikoClientOptions` from src/types/common.ts. -/
structure IikoClientOptions where
  baseUrl : Option String
  timeout : Option Nat
deriving Repr, DecidableEq

/-- The `{}` default options object. -/
def IikoClientOptions.empty : IikoClientOptions := ⟨none, none⟩

def DEFAULT_BASE_URL : String := "https://api-ru.iiko.services"

def DEFAULT_TIMEOUT : Nat := 30000

/-- The `IikoClient` instance state: the readonly `apiKey`, the axios
configuration fixed at construction, and the mutable `accessToken` field
(`string | null`, initially `null`). -/
structure IikoClient where
  apiKey : String
  baseURL : String
  timeout : Nat
  accessToken : Option String
deriving Repr, DecidableEq

/-- The `IikoClient` constructor: rejects a falsy or whitespace-only apiKey
with `Error("API key is required")`, otherwise builds a client with defaulted
configuration and `accessToken = null`. -/
def IikoClient.make (apiKey : String) (options : IikoClientOptions) :
    Except String IikoClient :=
  if apiKey = "" ∨ jsTrim apiKey = "" then
    Except.error "API key is required"
  else
    Except.ok
      { apiKey := apiKey, baseURL := options.baseUrl.getD DEFAULT_BASE_URL,
        timeout := options.timeout.getD DEFAULT_TIMEOUT, accessToken := none }

/-- `isAuthenticated()`: `this.accessToken !== null`. -/
def IikoClient.isAuthenticated (c : IikoClient) : Bool :=
  c.accessToken.isSome

/-- `getAccessToken()`: returns the stored token or `null`. -/
def IikoClient.getAccessToken (c : IikoClient) : Option String :=
  c.accessToken

/-- JS string interpolation of a `string | null` value. -/
def jsInterp : Option String → String
  | Option.none => "null"
  | Option.some s => s

/-- `getAuthHeaders()`: the `Authorization: Bearer ${accessToken}` value. -/
def IikoClient.getAuthHeaders (c : IikoClient) : String :=
  "Bearer " ++ jsInterp c.accessToken

/-- Outcome of one network dispatch: axios resolves with a decoded value or
rejects with an `AxiosError` (already fed through the response interceptor's
error path in the real code; here `handleError` is applied at the call site,
matching the interceptor's effect). -/
inductive Dispatch (α : Type) where
  | success : α → Dispatch α
  | failure : AxiosError → Dispatch α

/-- `{ apiLogin: this.apiKey }`, the body POSTed to /api/1/access_token. -/
structure AuthRequest where
  apiLogin : String
deriving Repr, DecidableEq

/-- `AuthResponse` from src/types/common.ts (part_000 revision): the record
`{ token }` returned by `authenticate()`. -/
structure AuthResponse where
  token : String
deriving Repr, DecidableEq

/-- `authenticate()`: POST the apiKey to the token endpoint; on success store
`response.data` in `accessToken` and return `{ token }`; on failure the
interceptor's typed error propagates and the client is untouched.  The third
component lists the requests dispatched (always exactly one). -/
def IikoClient.authenticate (c : IikoClient)
    (transport : AuthRequest → Dispatch String) :
    Except IikoApiError AuthResponse × IikoClient × List AuthRequest :=
  let req : AuthRequest := ⟨c.apiKey⟩
  match transport req with
  | Dispatch.success tok =>
    (Except.ok ⟨tok⟩, { c with accessToken := some tok }, [req])
  | Dispatch.failure e => (Except.error (handleError e), c, [req])

/-- An authenticated POST as it leaves the client: endpoint path, the body
forwarded verbatim, and the Authorization header value. -/
structure OutgoingPost (β : Type) where
  path : String
  body : β
  authorization : String
deriving Repr

/-- `ensureAuthenticated()` guard condition: `!this.accessToken` is true for
`null` and for the empty string. -/
def IikoClient.guardFails (c : IikoClient) : Bool :=
  !(jsTruthy c.accessToken)

/-- `post<T>(endpoint, data)`: `ensureAuthenticated()` first — throwing
`IikoAuthError("Not authenticated. Call authenticate() first.")` before any
dispatch when the token is falsy — then one dispatch with the auth header,
returning `response.data` unchanged. -/
def IikoClient.post {β γ : Type} (c : IikoClient) (endpoint : String) (data : β)
    (transport : OutgoingPost β → Dispatch γ) :
    Except IikoApiError γ × IikoClient × List (OutgoingPost β) :=
  if c.guardFails then
    (Except.error
      (IikoAuthError.make "Not authenticated. Call authenticate() first." none),
      c, [])
  else
    let req : OutgoingPost β := ⟨endpoint, data, c.getAuthHeaders⟩
    match transport req with
    | Dispatch.success v => (Except.ok v, c, [req])
    | Dispatch.failure e => (Except.error (handleError e), c, [req])

/-- `GetOrganizationsRequest` from src/types/common.ts. -/
structure GetOrganizationsRequest where
  organizationIds : Option (List String)
  returnAdditionalInfo : Option Bool
  includeDisabled : Option Bool
deriving Repr, DecidableEq

/-- The `{}` default request used when `getOrganizations` is called with no
argument. -/
def GetOrganizationsRequest.empty : GetOrganizationsRequest := ⟨none, none, none⟩

/-- `Organization` from src/types/common.ts (JS numbers modeled as `Int`). -/
structure Organization where
  id : String
  name : String
  country : Option String
  restaurantAddress : Option String
  latitude : Option Int
  longitude : Option Int
  useUTCOffset : Option Bool
  utcOffset : Option Int
  currencyIsoName : Option String
  currencyMinimumDenomination : Option Int
  isDisabled : Option Bool
deriving Repr, DecidableEq

/-- A minimal organization record carrying only the required fields. -/
def Organization.basic (id name : String) : Organization :=
  ⟨id, name, none, none, none, none, none, none, none, none, none⟩

/-- `GetOrganizationsResponse` from src/types/common.ts. -/
structure GetOrganizationsResponse where
  correlationId : String
  organizations : List Organization
deriving Repr, DecidableEq

/-- `getOrganizations(request = {})`: delegate to `post` on
/api/1/organizations with the request forwarded verbatim. -/
def IikoClient.getOrganizations (c : IikoClient)
    (request : GetOrganizationsRequest)
    (transport :
      OutgoingPost GetOrganizationsRequest → Dispatch GetOrganizationsResponse) :
    Except IikoApiError GetOrganizationsResponse × IikoClient ×
      List (OutgoingPost GetOrganizationsRequest) :=
  c.post "/api/1/organizations" request transport

/-! ### Helper lemmas -/

/-- If every element surviving `dropWhile p` satisfies `p`, every element of
the list does. -/
theorem all_of_dropWhile_all {α : Type} (p : α → Bool) :
    ∀ l : List α, (∀ x ∈ l.dropWhile p, p x) → ∀ x ∈ l, p x := by
  intro l
  induction l with
  | nil => intro _ x hx; cases hx
  | cons a t ih =>
    intro h x hx
    cases hp : p a with
    | true =>
      rw [List.dropWhile_cons] at h
      simp only [hp, if_true] at h
      rcases List.mem_cons.mp hx with h1 | h2
      · rw [h1]; exact hp
      · exact ih h x h2
    | false =>
      rw [List.dropWhile_cons] at h
      simp only [hp, if_false] at h
      exact h x hx

/-- `jsTrim` yields the empty string exactly on all-whitespace strings. -/
theorem jsTrim_eq_empty_iff (s : String) :
    jsTrim s = "" ↔ ∀ c ∈ s.data, jsWhitespaceChar c := by
  unfold jsTrim
  constructor
  · intro h c hc
    have hl : ((s.data.dropWhile jsWhitespaceChar).reverse.dropWhile
        jsWhitespaceChar).reverse = [] := by
      simpa using congrArg String.data h
    rw [List.reverse_eq_nil_iff] at hl
    rw [List.dropWhile_eq_nil_iff] at hl
    have hall : ∀ x ∈ s.data.dropWhile jsWhitespaceChar, jsWhitespaceChar x :=
      fun x hx => hl x (List.mem_reverse.mpr hx)
    exact all_of_dropWhile_all jsWhitespaceChar s.data hall c hc
  · intro h
    have h1 : s.data.dropWhile jsWhitespaceChar = [] :=
      List.dropWhile_eq_nil_iff.mpr h
    rw [h1]
    rfl

/-- The `message` computed by `handleError` is always the body's `message`
field, else the transport's `message`, else the fixed fallback text. -/
theorem handleError_message (e : AxiosError) :
    (handleError e).message =
      (((e.response.bind AxiosResponse.data).bind ApiErrorResponse.message).or
        e.message).getD "An unknown error occurred" := by
  simp only [handleError]
  split
  · rfl
  · split <;> rfl

/-! ### Claim theorems -/

/-- C1: a client that has never completed a successful `authenticate()`
(`accessToken = null`) sees every resource call fail with the local guard's
`IikoAuthError("Not authenticated. Call authenticate() first.")`, and no
request is dispatched over the network. -/
theorem resource_call_before_auth_is_guarded (c : IikoClient)
    (h : c.accessToken = none) (request : GetOrganizationsRequest)
    (transport :
      OutgoingPost GetOrganizationsRequest → Dispatch GetOrganizationsResponse) :
    (c.getOrganizations request transport).1 =
      Except.error
        (IikoAuthError.make "Not authenticated. Call authenticate() first." none) ∧
    (c.getOrganizations request transport).2.2 = [] := by
  constructor <;>
    simp [IikoClient.getOrganizations, IikoClient.post, IikoClient.guardFails,
      jsTruthy, h]

/-- Witness for C1 at a concrete fresh client. -/
theorem resource_call_before_auth_is_guarded_witness :
    ((IikoClient.mk "k" DEFAULT_BASE_URL 30000 none).getOrganizations
        GetOrganizationsRequest.empty
        (fun _ => Dispatch.success ⟨"cid", []⟩)).1 =
      Except.error
        (IikoAuthError.make "Not authenticated. Call authenticate() first." none) ∧
    ((IikoClient.mk "k" DEFAULT_BASE_URL 30000 none).getOrganizations
        GetOrganizationsRequest.empty
        (fun _ => Dispatch.success ⟨"cid", []⟩)).2.2 = [] :=
  resource_call_before_auth_is_guarded (IikoClient.mk "k" DEFAULT_BASE_URL 30000 none)
    rfl GetOrganizationsRequest.empty (fun _ => Dispatch.success ⟨"cid", []⟩)

/-- C2: `handleError` classifies by strict precedence: status 401 yields the
auth error (statusCode 401, errorCode "AUTH_ERROR"); else status 429 yields
the rate-limit error (statusCode 429, errorCode "RATE_LIMIT"); else the
generic error with the available status and body code; with no response at
all the status defaults to 500 and the generic kind results. -/
theorem error_classification_precedence (e : AxiosError) :
    (∀ r, e.response = some r → r.status = 401 →
      (handleError e).name = "IikoAuthError" ∧
      (handleError e).statusCode = 401 ∧
      (handleError e).errorCode = some "AUTH_ERROR") ∧
    (∀ r, e.response = some r → r.status = 429 →
      (handleError e).name = "IikoRateLimitError" ∧
      (handleError e).statusCode = 429 ∧
      (handleError e).errorCode = some "RATE_LIMIT") ∧
    (∀ r, e.response = some r → r.status ≠ 401 → r.status ≠ 429 →
      (handleError e).name = "IikoApiError" ∧
      (handleError e).statusCode = r.status ∧
      (handleError e).errorCode = r.data.bind ApiErrorResponse.errorCode) ∧
    (e.response = none →
      (handleError e).name = "IikoApiError" ∧
      (handleError e).statusCode = 500 ∧
      (handleError e).errorCode = none) := by
  refine ⟨?_, ?_, ?_, ?_⟩
  · intro r hr hs
    refine ⟨?_, ?_, ?_⟩ <;>
      simp [handleError, hr, hs, IikoAuthError.make]
  · intro r hr hs
    refine ⟨?_, ?_, ?_⟩ <;>
      simp [handleError, hr, hs, IikoRateLimitError.make]
  · intro r hr h1 h2
    refine ⟨?_, ?_, ?_⟩ <;>
      simp [handleError, hr, h1, h2, IikoApiError.make]
  · intro hr
    refine ⟨?_, ?_, ?_⟩ <;>
      simp [handleError, hr, IikoApiError.make]

/-- Witness for C2 at a concrete 401 response. -/
theorem error_classification_precedence_witness :
    (handleError ⟨some ⟨401, none, none⟩, none⟩).name = "IikoAuthError" ∧
    (handleError ⟨some ⟨401, none, none⟩, none⟩).statusCode = 401 ∧
    (handleError ⟨some ⟨401, none, none⟩, none⟩).errorCode = some "AUTH_ERROR" :=
  (error_classification_precedence ⟨some ⟨401, none, none⟩, none⟩).1
    ⟨401, none, none⟩ rfl rfl

/-- C3: after a successful `authenticate()` returning a non-empty token `t`,
the client reports `isAuthenticated() = true` and `getAccessToken() = t`, the
returned record contains `t`, exactly one request (carrying the apiKey) was
dispatched, and a later successful `authenticate()` returning `t2` replaces
the stored token with `t2`. -/
theorem authenticate_success_stores_token (c : IikoClient) (t : String)
    (ht : t ≠ "") (tr : AuthRequest → Dispatch String)
    (h : tr ⟨c.apiKey⟩ = Dispatch.success t) :
    (c.authenticate tr).1 = Except.ok ⟨t⟩ ∧
    ((c.authenticate tr).2.1).isAuthenticated = true ∧
    ((c.authenticate tr).2.1).getAccessToken = some t ∧
    (c.authenticate tr).2.2 = [⟨c.apiKey⟩] ∧
    ∀ t2 tr2, tr2 ⟨((c.authenticate tr).2.1).apiKey⟩ = Dispatch.success t2 →
      ((((c.authenticate tr).2.1).authenticate tr2).2.1).getAccessToken =
        some t2 := by
  refine ⟨?_, ?_, ?_, ?_, ?_⟩ <;>
    simp [IikoClient.authenticate, h, IikoClient.isAuthenticated,
      IikoClient.getAccessToken]
  intro t2 tr2 h2
  simp [IikoClient.authenticate, h2]

/-- Witness for C3 at a concrete client and token transports. -/
theorem authenticate_success_stores_token_witness :
    ((IikoClient.mk "k" DEFAULT_BASE_URL 30000 none).authenticate
        (fun _ => Dispatch.success "tok")).1 = Except.ok ⟨"tok"⟩ ∧
    (((IikoClient.mk "k" DEFAULT_BASE_URL 30000 none).authenticate
        (fun _ => Dispatch.success "tok")).2.1).getAccessToken = some "tok" ∧
    ((((IikoClient.mk "k" DEFAULT_BASE_URL 30000 none).authenticate
        (fun _ => Dispatch.success "tok")).2.1).authenticate
          (fun _ => Dispatch.success "tok2")).2.1.getAccessToken = some "tok2" :=
  have h := authenticate_success_stores_token
    (IikoClient.mk "k" DEFAULT_BASE_URL 30000 none) "tok" (by decide)
    (fun _ => Dispatch.success "tok") rfl
  ⟨h.1, h.2.2.1, h.2.2.2.2 "tok2" (fun _ => Dispatch.success "tok2") rfl⟩

/-- C4: when the dispatch behind `authenticate()` fails, the typed error
propagates and the client is unchanged: the stored token (in particular
`null` for a never-authenticated client) is neither cleared nor replaced. -/
theorem authenticate_failure_preserves_state (c : IikoClient)
    (tr : AuthRequest → Dispatch String) (e : AxiosError)
    (h : tr ⟨c.apiKey⟩ = Dispatch.failure e) :
    (c.authenticate tr).1 = Except.error (handleError e) ∧
    (c.authenticate tr).2.1 = c := by
  constructor <;> simp [IikoClient.authenticate, h]

/-- Witness for C4: a 401 failure on a fresh client leaves it unauthenticated,
and on a previously authenticated client keeps the old token. -/
theorem authenticate_failure_preserves_state_witness :
    ((IikoClient.mk "k" DEFAULT_BASE_URL 30000 none).authenticate
        (fun _ => Dispatch.failure ⟨some ⟨401, none, none⟩, none⟩)).2.1 =
      IikoClient.mk "k" DEFAULT_BASE_URL 30000 none ∧
    ((IikoClient.mk "k" DEFAULT_BASE_URL 30000 (some "old")).authenticate
        (fun _ => Dispatch.failure ⟨some ⟨401, none, none⟩, none⟩)).2.1 =
      IikoClient.mk "k" DEFAULT_BASE_URL 30000 (some "old") :=
  ⟨(authenticate_failure_preserves_state
      (IikoClient.mk "k" DEFAULT_BASE_URL 30000 none)
      (fun _ => Dispatch.failure ⟨some ⟨401, none, none⟩, none⟩)
      ⟨some ⟨401, none, none⟩, none⟩ rfl).2,
   (authenticate_failure_preserves_state
      (IikoClient.mk "k" DEFAULT_BASE_URL 30000 (some "old"))
      (fun _ => Dispatch.failure ⟨some ⟨401, none, none⟩, none⟩)
      ⟨some ⟨401, none, none⟩, none⟩ rfl).2⟩

/-- A concrete 429 failure whose retry-after header is present but does not
parse as an integer. -/
def unparseableRetryFailure : AxiosError :=
  ⟨some ⟨429, some ⟨none, some "Rate limit exceeded", none⟩, some "abc"⟩,
    some "Request failed with status code 429"⟩

/-- C5 counterexample: on a 429 response with the unparseable retry-after
header "abc", the resulting rate-limit error's `retryAfter` is NOT absent —
it is the `parseInt` result `NaN` — contradicting the claim that an
unparseable header yields an absent `retryAfter`. -/
theorem retry_after_unparseable_not_absent :
    (handleError unparseableRetryFailure).name = "IikoRateLimitError" ∧
    (handleError unparseableRetryFailure).retryAfter ≠ none ∧
    (handleError unparseableRetryFailure).retryAfter = some JsNumber.nan := by
  refine ⟨rfl, ?_, rfl⟩
  decide

/-- C5 (amended): on a 429 response, a retry-after header that parses to the
integer `n` gives `retryAfter = n`; a missing or empty header gives an absent
`retryAfter`; a non-empty header that does not parse gives
`retryAfter = NaN` (present, not absent). -/
theorem retry_after_header_parsing (e : AxiosError) (r : AxiosResponse)
    (hr : e.response = some r) (hs : r.status = 429) :
    (∀ s n, r.retryAfterHeader = some s → jsParseInt s = JsNumber.num n →
      (handleError e).retryAfter = some (JsNumber.num n)) ∧
    (r.retryAfterHeader = none → (handleError e).retryAfter = none) ∧
    (r.retryAfterHeader = some "" → (handleError e).retryAfter = none) ∧
    (∀ s, r.retryAfterHeader = some s → s ≠ "" →
      jsParseInt s = JsNumber.nan →
      (handleError e).retryAfter = some JsNumber.nan) := by
  refine ⟨?_, ?_, ?_, ?_⟩
  · intro s n hh hp
    have hs' : s ≠ "" := by
      intro he
      rw [he] at hp
      exact JsNumber.noConfusion (rfl.trans hp.symm)
    simp [handleError, hr, hs, hh, jsTruthy, hs', hp,
      IikoRateLimitError.make]
  · intro hh
    simp [handleError, hr, hs, hh, jsTruthy, IikoRateLimitError.make]
  · intro hh
    simp [handleError, hr, hs, hh, jsTruthy, IikoRateLimitError.make]
  · intro s hh hs' hp
    simp [handleError, hr, hs, hh, jsTruthy, hs', hp,
      IikoRateLimitError.make]

/-- Witness for the amended C5: header "60" gives 60; no header gives an
absent retryAfter. -/
theorem retry_after_header_parsing_witness :
    (handleError ⟨some ⟨429, none, some "60"⟩, none⟩).retryAfter =
      some (JsNumber.num 60) ∧
    (handleError ⟨some ⟨429, none, none⟩, none⟩).retryAfter = none :=
  ⟨(retry_after_header_parsing ⟨some ⟨429, none, some "60"⟩, none⟩
      ⟨429, none, some "60"⟩ rfl rfl).1 "60" 60 rfl (by decide),
   (retry_after_header_parsing ⟨some ⟨429, none, none⟩, none⟩
      ⟨429, none, none⟩ rfl rfl).2.1 rfl⟩

/-- C6: the classified error's message is chosen by precedence: the structured
body's `message` field when present; else the transport layer's own message;
else the literal "An unknown error occurred". -/
theorem error_message_precedence (e : AxiosError) :
    (∀ d m, e.response.bind AxiosResponse.data = some d → d.message = some m →
      (handleError e).message = m) ∧
    ((e.response.bind AxiosResponse.data).bind ApiErrorResponse.message = none →
      ∀ m, e.message = some m → (handleError e).message = m) ∧
    ((e.response.bind AxiosResponse.data).bind ApiErrorResponse.message = none →
      e.message = none →
      (handleError e).message = "An unknown error occurred") := by
  refine ⟨?_, ?_, ?_⟩
  · intro d m hd hm
    rw [handleError_message, hd]
    simp [hm]
  · intro hnone m hm
    rw [handleError_message, hnone, hm]
    rfl
  · intro hnone hm
    rw [handleError_message, hnone, hm]
    rfl

/-- Witness for C6: body message wins over the transport message; the
transport message is used when the body has none; the fallback text is used
when both are missing. -/
theorem error_message_precedence_witness :
    (handleError ⟨some ⟨500, some ⟨none, some "Internal server error", none⟩,
        none⟩, some "Request failed"⟩).message = "Internal server error" ∧
    (handleError ⟨some ⟨500, none, none⟩, some "Request failed"⟩).message =
      "Request failed" ∧
    (handleError ⟨none, none⟩).message = "An unknown error occurred" :=
  ⟨(error_message_precedence ⟨some ⟨500, some ⟨none, some "Internal server error",
      none⟩, none⟩, some "Request failed"⟩).1
      ⟨none, some "Internal server error", none⟩ "Internal server error" rfl rfl,
   (error_message_precedence ⟨some ⟨500, none, none⟩, some "Request failed"⟩).2.1
      rfl "Request failed" rfl,
   (error_message_precedence ⟨none, none⟩).2.2 rfl rfl⟩

/-- C7: construction fails with `Error("API key is required")` exactly when
the credential is empty or all-whitespace (of any length); any other
credential yields a client with `isAuthenticated() = false` and
`getAccessToken()` absent. -/
theorem construction_validates_credential (k : String)
    (options : IikoClientOptions) :
    (IikoClient.make k options = Except.error "API key is required" ↔
      ∀ c ∈ k.data, jsWhitespaceChar c) ∧
    ((∃ c ∈ k.data, ¬ jsWhitespaceChar c) →
      ∃ cl, IikoClient.make k options = Except.ok cl ∧
        cl.isAuthenticated = false ∧ cl.getAccessToken = none) := by
  have hguard : (k = "" ∨ jsTrim k = "") ↔ ∀ c ∈ k.data, jsWhitespaceChar c := by
    constructor
    · intro h
      rcases h with h | h
      · intro c hc
        rw [h] at hc
        cases hc
      · exact (jsTrim_eq_empty_iff k).mp h
    · intro h
      exact Or.inr ((jsTrim_eq_empty_iff k).mpr h)
  constructor
  · constructor
    · intro h
      by_contra hno
      rw [IikoClient.make, if_neg (fun hg => hno (hguard.mp hg))] at h
      exact Except.noConfusion h
    · intro h
      rw [IikoClient.make, if_pos (hguard.mpr h)]
  · intro h
    rcases h with ⟨c, hc, hnc⟩
    have hng : ¬ (k = "" ∨ jsTrim k = "") := fun hg => hnc (hguard.mp hg c hc)
    refine ⟨⟨k, options.baseUrl.getD DEFAULT_BASE_URL,
      options.timeout.getD DEFAULT_TIMEOUT, none⟩, ?_, rfl, rfl⟩
    rw [IikoClient.make, if_neg hng]

/-- Witness for C7: a three-space credential is rejected; the credential "ab"
is accepted and yields an unauthenticated client with no token. -/
theorem construction_validates_credential_witness :
    IikoClient.make "   " IikoClientOptions.empty =
      Except.error "API key is required" ∧
    ∃ cl, IikoClient.make "ab" IikoClientOptions.empty = Except.ok cl ∧
      cl.isAuthenticated = false ∧ cl.getAccessToken = none :=
  ⟨(construction_validates_credential "   " IikoClientOptions.empty).1.mpr
      (by decide),
   (construction_validates_credential "ab" IikoClientOptions.empty).2
      ⟨'a', by decide, by decide⟩⟩

/-- C8: for an authenticated client, `getOrganizations` dispatches exactly one
POST to /api/1/organizations whose body is the request record verbatim (the
empty record when no filters are given) with the bearer header, and on
success returns the transport's response record unchanged. -/
theorem get_organizations_forwards_verbatim (c : IikoClient)
    (hauth : jsTruthy c.accessToken = true)
    (request : GetOrganizationsRequest) (resp : GetOrganizationsResponse)
    (tr :
      OutgoingPost GetOrganizationsRequest → Dispatch GetOrganizationsResponse)
    (htr : tr ⟨"/api/1/organizations", request, c.getAuthHeaders⟩ =
      Dispatch.success resp) :
    (c.getOrganizations request tr).1 = Except.ok resp ∧
    (c.getOrganizations request tr).2.2 =
      [⟨"/api/1/organizations", request, c.getAuthHeaders⟩] ∧
    ∀ x, (c.getOrganizations request tr).1 = Except.ok x →
      x.correlationId = resp.correlationId ∧
      x.organizations = resp.organizations := by
  have h1 : (c.getOrganizations request tr).1 = Except.ok resp := by
    simp [IikoClient.getOrganizations, IikoClient.post, IikoClient.guardFails,
      hauth, htr]
  refine ⟨h1, ?_, ?_⟩
  · simp [IikoClient.getOrganizations, IikoClient.post, IikoClient.guardFails,
      hauth, htr]
  · intro x hx
    rw [h1] at hx
    cases hx
    exact ⟨rfl, rfl⟩

/-- Witness for C8: authenticated with token "T", no filters: the body sent is
the empty record and the mocked response round-trips unchanged. -/
theorem get_organizations_forwards_verbatim_witness :
    ((IikoClient.mk "k" DEFAULT_BASE_URL 30000 (some "T")).getOrganizations
        GetOrganizationsRequest.empty
        (fun _ => Dispatch.success
          ⟨"cid", [Organization.basic "org-1" "Restaurant 1"]⟩)).1 =
      Except.ok ⟨"cid", [Organization.basic "org-1" "Restaurant 1"]⟩ ∧
    ((IikoClient.mk "k" DEFAULT_BASE_URL 30000 (some "T")).getOrganizations
        GetOrganizationsRequest.empty
        (fun _ => Dispatch.success
          ⟨"cid", [Organization.basic "org-1" "Restaurant 1"]⟩)).2.2 =
      [⟨"/api/1/organizations", GetOrganizationsRequest.empty,
        (IikoClient.mk "k" DEFAULT_BASE_URL 30000 (some "T")).getAuthHeaders⟩] :=
  have h := get_organizations_forwards_verbatim
    (IikoClient.mk "k" DEFAULT_BASE_URL 30000 (some "T")) rfl
    GetOrganizationsRequest.empty
    ⟨"cid", [Organization.basic "org-1" "Restaurant 1"]⟩
    (fun _ => Dispatch.success
      ⟨"cid", [Organization.basic "org-1" "Restaurant 1"]⟩) rfl
  ⟨h.1, h.2.1⟩

/-- C9: only `authenticate` mutates the session state: a resource call leaves
the whole client unchanged whatever its transport does, `getAccessToken` and
`isAuthenticated` are pure reads of the token field, and even `authenticate`
leaves the credential and the configuration untouched. -/
theorem only_authenticate_mutates_state (c : IikoClient)
    (request : GetOrganizationsRequest)
    (tr :
      OutgoingPost GetOrganizationsRequest → Dispatch GetOrganizationsResponse)
    (tra : AuthRequest → Dispatch String) :
    (c.getOrganizations request tr).2.1 = c ∧
    c.getAccessToken = c.accessToken ∧
    c.isAuthenticated = c.accessToken.isSome ∧
    ((c.authenticate tra).2.1).apiKey = c.apiKey ∧
    ((c.authenticate tra).2.1).baseURL = c.baseURL ∧
    ((c.authenticate tra).2.1).timeout = c.timeout := by
  have hpost : (c.getOrganizations request tr).2.1 = c := by
    rw [IikoClient.getOrganizations, IikoClient.post]
    split
    · rfl
    · cases htr : tr ⟨"/api/1/organizations", request, c.getAuthHeaders⟩ <;>
        simp [htr]
  have hauth : ((c.authenticate tra).2.1).apiKey = c.apiKey ∧
      ((c.authenticate tra).2.1).baseURL = c.baseURL ∧
      ((c.authenticate tra).2.1).timeout = c.timeout := by
    rw [IikoClient.authenticate]
    cases tra ⟨c.apiKey⟩ <;> exact ⟨rfl, rfl, rfl⟩
  exact ⟨hpost, rfl, rfl, hauth.1, hauth.2.1, hauth.2.2⟩

/-- C10: when the server returns the empty-string token, `isAuthenticated()`
is true (the token is non-null) yet every resource call fails with the local
"Not authenticated" guard and dispatches nothing: the predicate (non-null)
and the guard (truthy) disagree on the empty string. -/
theorem empty_token_state_disagreement (c : IikoClient)
    (tr : AuthRequest → Dispatch String)
    (h : tr ⟨c.apiKey⟩ = Dispatch.success "")
    (request : GetOrganizationsRequest)
    (tr2 :
      OutgoingPost GetOrganizationsRequest → Dispatch GetOrganizationsResponse) :
    ((c.authenticate tr).2.1).isAuthenticated = true ∧
    (((c.authenticate tr).2.1).getOrganizations request tr2).1 =
      Except.error
        (IikoAuthError.make "Not authenticated. Call authenticate() first." none) ∧
    (((c.authenticate tr).2.1).getOrganizations request tr2).2.2 = [] := by
  have hc : (c.authenticate tr).2.1 = { c with accessToken := some "" } := by
    simp [IikoClient.authenticate, h]
  rw [hc]
  refine ⟨rfl, ?_, ?_⟩ <;>
    simp [IikoClient.getOrganizations, IikoClient.post, IikoClient.guardFails,
      jsTruthy]

/-- Witness for C10 at a concrete client whose authentication returns "". -/
theorem empty_token_state_disagreement_witness :
    (((IikoClient.mk "k" DEFAULT_BASE_URL 30000 none).authenticate
        (fun _ => Dispatch.success "")).2.1).isAuthenticated = true ∧
    ((((IikoClient.mk "k" DEFAULT_BASE_URL 30000 none).authenticate
        (fun _ => Dispatch.success "")).2.1).getOrganizations
          GetOrganizationsRequest.empty
          (fun _ => Dispatch.success ⟨"cid", []⟩)).1 =
      Except.error
        (IikoAuthError.make "Not authenticated. Call authenticate() first." none) ∧
    ((((IikoClient.mk "k" DEFAULT_BASE_URL 30000 none).authenticate
        (fun _ => Dispatch.success "")).2.1).getOrganizations
          GetOrganizationsRequest.empty
          (fun _ => Dispatch.success ⟨"cid", []⟩)).2.2 = [] :=
  empty_token_state_disagreement (IikoClient.mk "k" DEFAULT_BASE_URL 30000 none)
    (fun _ => Dispatch.success "") rfl GetOrganizationsRequest.empty
    (fun _ => Dispatch.success ⟨"cid", []⟩)

end IikoApi
